import Mathlib

/-!
Shallow embedding of the poise `group_testing` example
(src/examples/group_testing/main.rs) together with the command-dispatch
core its specification describes.  The command bodies, the global check
closure, the error handler and the configured options are translated
from the source file; the dispatch engine, check pipeline, edit tracker
and registry are the framework code the example links against, which is
not under src/, so those parts are modelled from the spec (each such
definition says so in its doc comment).
-/

namespace GroupTesting

/-- Modulus of Rust `u32` arithmetic, 2 ^ 32. -/
def u32Mod : Nat := 4294967296

/-- Rust `u32::wrapping_add` on numbers below the modulus: addition modulo 2 ^ 32
(used at main.rs line 32). -/
def wrapping_add (a b : Nat) : Nat := (a + b) % u32Mod

/-- Rust `u32::wrapping_sub` on numbers below the modulus: subtraction modulo 2 ^ 32
(used at main.rs line 40). -/
def wrapping_sub (a b : Nat) : Nat := (a + u32Mod - b % u32Mod) % u32Mod

/-- Body of the command registered as `plus` (fn `add_one`, main.rs lines 30-35):
replies with the string `"{number} + 1 = {number.wrapping_add(1)}"`. -/
def add_one (number : Nat) : String :=
  toString number ++ " + 1 = " ++ toString (wrapping_add number 1)

/-- Body of the command registered as `minus` (fn `subtract_one`, main.rs lines 38-43):
replies with the string `"{number} - 1 = {number.wrapping_sub(1)}"`. -/
def subtract_one (number : Nat) : String :=
  toString number ++ " - 1 = " ++ toString (wrapping_sub number 1)

/-- The ambient data a check or command body may read: caller identity,
caller display name, and whether the caller is a bot owner. -/
structure Ctx where
  authorId : Nat
  authorName : String
  isOwner : Bool

/-- A check: a fallible asynchronous predicate on the invocation context,
`Ok true` = allow, `Ok false` = deny, `Err e` = check errored. -/
abbrev Check := Ctx → Except String Bool

/-- The global `command_check` closure from main.rs lines 98-105:
returns `Ok(false)` when the author id equals 123456789, `Ok(true)` otherwise. -/
def command_check (ctx : Ctx) : Except String Bool :=
  if ctx.authorId = 123456789 then .ok false else .ok true

/-- A registered command as the dispatcher sees it: name, opaque body,
and its own ordered checks.  Modelled from the spec: §3 Command (the
framework's command type is not under src/). -/
structure CommandSpec (α : Type) where
  name : String
  body : Ctx → α
  checks : List Check

/-- The slice of `FrameworkOptions` the dispatch core reads.  Modelled from
the spec: §6 configuration surface (the framework's options type is not
under src/); the fields mirror `command_check` and `skip_checks_for_owners`
of main.rs lines 98-108. -/
structure Options where
  global_check : Option Check
  skip_checks_for_owners : Bool

/-- The options configured in `main` (main.rs lines 74-119): the global
check is installed and `skip_checks_for_owners` is `false` (line 108). -/
def programOptions : Options :=
  { global_check := some command_check, skip_checks_for_owners := false }

/-- Modelled from the spec: §6 — omitted options take documented defaults;
`skip_checks_for_owners: bool (default false)` and no global check installed. -/
def defaultOptions : Options :=
  { global_check := none, skip_checks_for_owners := false }

/-- Outcome of running the check pipeline. -/
inductive CheckOutcome
  | allowed
  | denied
  | errored (e : String)
deriving DecidableEq

/-- Modelled from the spec: §4.3 Check Pipeline — runs checks in the given
order and short-circuits on the first deny (or error); the second component
counts how many checks were evaluated. -/
def evaluateChecks (checks : List Check) (ctx : Ctx) : CheckOutcome × Nat :=
  match checks with
  | [] => (.allowed, 0)
  | c :: rest =>
    match c ctx with
    | .error e => (.errored e, 1)
    | .ok false => (.denied, 1)
    | .ok true =>
      let r := evaluateChecks rest ctx
      (r.1, r.2 + 1)

/-- Terminal result of one dispatch attempt.  Modelled from the spec:
§4.5 Dispatcher terminal states. -/
inductive DispatchResult (α : Type)
  | completed (out : α)
  | checkFailed
  | checkErrored (e : String)
deriving DecidableEq

/-- Modelled from the spec: §4.5 Checking/Executing — evaluate the global
check then the command's own checks; a deny yields `Failed/CheckFailed`
without running the body; allow runs the body.  Returns the result, whether
the body executed, and how many checks were evaluated. -/
def pipelineRun {α : Type} (opts : Options) (cmd : CommandSpec α) (ctx : Ctx) :
    DispatchResult α × Bool × Nat :=
  match evaluateChecks (opts.global_check.toList ++ cmd.checks) ctx with
  | (.allowed, k) => (.completed (cmd.body ctx), true, k)
  | (.denied, k) => (.checkFailed, false, k)
  | (.errored e, k) => (.checkErrored e, false, k)

/-- Modelled from the spec: §4.5 Dispatcher with the §4.3 owner-bypass flag —
when `skip_checks_for_owners` is set and the caller is an owner the pipeline
is skipped, otherwise every invocation goes through the check pipeline. -/
def dispatch {α : Type} (opts : Options) (cmd : CommandSpec α) (ctx : Ctx) :
    DispatchResult α × Bool × Nat :=
  if opts.skip_checks_for_owners && ctx.isOwner then
    (.completed (cmd.body ctx), true, 0)
  else
    pipelineRun opts cmd ctx

/-- Modelled from the spec: §5/§7 — each inbound event is dispatched by its
own independent invocation task; a sequence of events is processed elementwise. -/
def dispatchAll (opts : Options) (events : List (CommandSpec String × Ctx)) :
    List (DispatchResult String × Bool × Nat) :=
  events.map (fun ev => dispatch opts ev.1 ev.2)

/-- The command registered as `hello` (fn `say_hello`, main.rs lines 16-21):
no own checks, body replies `"Hello, {author}"`. -/
def say_hello : CommandSpec String :=
  { name := "hello", body := fun ctx => "Hello, " ++ ctx.authorName, checks := [] }

/-- The command registered as `plus` (main.rs lines 30-35) at a resolved
argument `number`: no own checks, body is `add_one`. -/
def plusCommand (number : Nat) : CommandSpec String :=
  { name := "plus", body := fun _ => add_one number, checks := [] }

/-- The command registered as `minus` (main.rs lines 38-43) at a resolved
argument `number`: no own checks, body is `subtract_one`. -/
def minusCommand (number : Nat) : CommandSpec String :=
  { name := "minus", body := fun _ => subtract_one number, checks := [] }

/-- A context whose author is not the denied id (for concrete instances). -/
def allowedCtx : Ctx := { authorId := 42, authorName := "alice", isOwner := false }

/-- A context whose author is the denied id 123456789 (for concrete instances). -/
def deniedCtx : Ctx := { authorId := 123456789, authorName := "bob", isOwner := false }

example : add_one 5 = "5 + 1 = 6" := by decide
example : add_one 4294967295 = "4294967295 + 1 = 0" := by decide
example : subtract_one 0 = "0 - 1 = 4294967295" := by decide

/-- One stored association from a source message to the invocation state
needed to re-run it, stamped with its creation time (seconds).  Modelled
from the spec: §3 EditEntry (the framework's edit tracker is not under src/). -/
structure EditEntry (σ : Type) where
  messageId : Nat
  createdAt : Nat
  state : σ

/-- The edit tracker: a configured timespan (seconds) and the stored entries,
newest first.  Modelled from the spec: §4.4 Edit Tracker. -/
structure EditTracker (σ : Type) where
  timespan : Nat
  entries : List (EditEntry σ)

/-- `EditTracker::for_timespan(duration)`: an empty tracker with the given
window, as constructed at main.rs lines 78-80 with 3600 seconds. -/
def for_timespan {σ : Type} (t : Nat) : EditTracker σ :=
  { timespan := t, entries := [] }

/-- Modelled from the spec: §4.4 — `record(message_id, invocation_state)`
stores an EditEntry with the current time. -/
def record {σ : Type} (tr : EditTracker σ) (now mid : Nat) (s : σ) : EditTracker σ :=
  { tr with entries := ⟨mid, now, s⟩ :: tr.entries }

/-- Modelled from the spec: §4.4 — `on_edit(message_id)` returns the stored
state only if `now - created_at <= timespan`; otherwise returns none and
evicts the stale entry. -/
def on_edit {σ : Type} (tr : EditTracker σ) (now mid : Nat) : Option σ × EditTracker σ :=
  match tr.entries.find? (fun e => e.messageId == mid) with
  | none => (none, tr)
  | some e =>
    if now - e.createdAt ≤ tr.timespan then (some e.state, tr)
    else (none, { tr with entries := tr.entries.filter (fun e2 => e2.messageId != mid) })

/-- The error classes `on_error` (main.rs lines 47-62) can receive: `Setup`
and `Command` are matched explicitly there; the remaining classes fall to the
catch-all arm.  The remaining classes are modelled from the spec: §7 taxonomy
(ArgumentError, CheckFailed, and other runtime errors). -/
inductive FrameworkError
  | setup (error : String)
  | command (error : String) (commandName : String)
  | argumentError (parameter : String) (reason : String)
  | checkFailed (reason : Option String)
  | other (description : String)
deriving DecidableEq

/-- The observable effect of running the error handler once: the process
panics (terminates), or a line is logged and the handler returns normally,
or the default handler dealt with the error and the handler returns normally. -/
inductive HandlerAction
  | panicked (msg : String)
  | logged (line : String)
  | handledByDefault
deriving DecidableEq

/-- The custom error handler `on_error` of main.rs lines 47-62: `Setup`
panics, `Command` logs a line naming the command and the cause, and every
other error is forwarded to the default handler `poise::builtins::on_error`;
if that handler itself fails, the failure is logged.  The default handler is
not under src/, so it is a parameter `d` here (the spec §4.6 says it is
best-effort and its failures are only logged). -/
def on_error (d : FrameworkError → Except String Unit) : FrameworkError → HandlerAction
  | .setup e => .panicked ("Failed to start bot: " ++ e)
  | .command e name => .logged ("Error in command `" ++ name ++ "`: " ++ e)
  | err =>
    match d err with
    | .ok _ => .handledByDefault
    | .error e => .logged ("Error while handling error: " ++ e)

/-- A default handler that always succeeds (for concrete instances). -/
def okHandler : FrameworkError → Except String Unit := fun _ => .ok ()

/-- A default handler that always fails (for concrete instances). -/
def failHandler : FrameworkError → Except String Unit := fun _ => .error "reply failed"

/-- A command as the registry sees it: canonical name and ordered aliases.
Modelled from the spec: §3 Command identity (the framework's registry is
not under src/). -/
structure RegCommand where
  name : String
  aliases : List String
deriving DecidableEq

/-- All names under which a command is reachable: canonical name then aliases. -/
def cmdNames (c : RegCommand) : List String := c.name :: c.aliases

/-- Registration failure.  Modelled from the spec: §4.1 `DuplicateName`. -/
inductive SetupError
  | duplicateName (n : String)
deriving DecidableEq

/-- First name of a command in the list that collides with an earlier name
(`seen` holds every name of the commands already registered).  Modelled from
the spec: §4.1 — two commands (including aliases) must not collide. -/
def firstDup (seen : List String) : List RegCommand → Option String
  | [] => none
  | c :: rest =>
    match (cmdNames c).find? (fun n => seen.contains n) with
    | some n => some n
    | none => firstDup (seen ++ cmdNames c) rest

/-- Modelled from the spec: §4.1 — `register(commands)` fails with
`DuplicateName` if two commands (including aliases) collide, and otherwise
publishes the whole set. -/
def register (cmds : List RegCommand) : Except SetupError (List RegCommand) :=
  match firstDup [] cmds with
  | some n => .error (.duplicateName n)
  | none => .ok cmds

/-! ## Theorems -/

/-- C1: for every u32 input n, invoking the registered command `plus` with
argument n produces the output string "n + 1 = r" with r = (n + 1) mod 2^32;
in particular 5 yields "5 + 1 = 6" and 4294967295 yields "4294967295 + 1 = 0"
(wrapping, not saturating or rejecting, arithmetic). -/
theorem plus_command_output (n : Nat) (hn : n < 2 ^ 32) (ctx : Ctx)
    (h : ctx.authorId ≠ 123456789) :
    dispatch programOptions (plusCommand n) ctx =
      (.completed (toString n ++ " + 1 = " ++ toString ((n + 1) % 2 ^ 32)), true, 1) ∧
    add_one 5 = "5 + 1 = 6" ∧ add_one 4294967295 = "4294967295 + 1 = 0" := by
  refine ⟨?_, by decide, by decide⟩
  have hc : command_check ctx = .ok true := by simp [command_check, h]
  have hmod : (2 : Nat) ^ 32 = u32Mod := by norm_num [u32Mod]
  simp [dispatch, programOptions, pipelineRun, plusCommand, evaluateChecks, hc,
    add_one, wrapping_add, hmod]

/-- Witness for C1 at n = 5 and a caller that is not denied. -/
theorem plus_command_output_witness :
    dispatch programOptions (plusCommand 5) allowedCtx =
      (.completed (toString 5 ++ " + 1 = " ++ toString ((5 + 1) % 2 ^ 32)), true, 1) ∧
    add_one 5 = "5 + 1 = 6" ∧ add_one 4294967295 = "4294967295 + 1 = 0" :=
  plus_command_output 5 (by norm_num) allowedCtx (by decide)

/-- C10: for every u32 input n, invoking the registered command `minus` with
argument n produces the output string "n - 1 = r" with r = (n - 1) mod 2^32
(modular arithmetic, stated over the integers); in particular 0 yields
"0 - 1 = 4294967295" (wrapping subtraction at the lower boundary). -/
theorem minus_command_output (n : Nat) (hn : n < 2 ^ 32) (ctx : Ctx)
    (h : ctx.authorId ≠ 123456789) :
    dispatch programOptions (minusCommand n) ctx =
      (.completed (toString n ++ " - 1 = " ++ toString (((n : Int) - 1) % 2 ^ 32).toNat),
        true, 1) ∧
    subtract_one 0 = "0 - 1 = 4294967295" := by
  refine ⟨?_, by decide⟩
  have hc : command_check ctx = .ok true := by simp [command_check, h]
  have hval : wrapping_sub n 1 = (((n : Int) - 1) % 2 ^ 32).toNat := by
    have hmod : (2 : Nat) ^ 32 = 4294967296 := by norm_num
    have hmodi : (2 : Int) ^ 32 = 4294967296 := by norm_num
    unfold wrapping_sub u32Mod
    rw [hmodi]
    omega
  simp [dispatch, programOptions, pipelineRun, minusCommand, evaluateChecks, hc,
    subtract_one, hval]

/-- Witness for C10 at n = 0 and a caller that is not denied. -/
theorem minus_command_output_witness :
    dispatch programOptions (minusCommand 0) allowedCtx =
      (.completed (toString 0 ++ " - 1 = " ++ toString (((0 : Int) - 1) % 2 ^ 32).toNat),
        true, 1) ∧
    subtract_one 0 = "0 - 1 = 4294967295" :=
  minus_command_output 0 (by norm_num) allowedCtx (by decide)

/-- C2: the global check denies exactly caller 123456789 — it returns
`Ok(false)` iff the author id is 123456789 and `Ok(true)` otherwise — and
consequently, for every command, an invocation by caller 123456789 reaches
the CheckFailed outcome and the command body is never executed. -/
theorem global_check_denies_123456789 {α : Type} (cmd : CommandSpec α) (ctx : Ctx) :
    (command_check ctx = .ok false ↔ ctx.authorId = 123456789) ∧
    (command_check ctx = .ok true ↔ ctx.authorId ≠ 123456789) ∧
    (ctx.authorId = 123456789 →
      dispatch programOptions cmd ctx = (.checkFailed, false, 1)) := by
  by_cases h : ctx.authorId = 123456789
  · refine ⟨by simp [command_check, h], by simp [command_check, h], fun _ => ?_⟩
    have hc : command_check ctx = .ok false := by simp [command_check, h]
    simp [dispatch, programOptions, pipelineRun, evaluateChecks, hc]
  · exact ⟨by simp [command_check, h], by simp [command_check, h], fun hh => absurd hh h⟩

/-- Witness for C2 at the `hello` command and the denied caller. -/
theorem global_check_denies_123456789_witness :
    (command_check deniedCtx = .ok false ↔ deniedCtx.authorId = 123456789) ∧
    (command_check deniedCtx = .ok true ↔ deniedCtx.authorId ≠ 123456789) ∧
    (deniedCtx.authorId = 123456789 →
      dispatch programOptions say_hello deniedCtx = (.checkFailed, false, 1)) :=
  global_check_denies_123456789 say_hello deniedCtx

/-- C3: an EditEntry recorded at time T in a tracker configured with the
program's timespan of 3600 seconds is retrievable by on_edit at every time t
with t - T ≤ 3600; at every time t with t - T > 3600, on_edit returns none
and the stale entry is evicted, so an entry older than its timespan is never
used to trigger re-execution. -/
theorem edit_entry_timespan {σ : Type} (tr : EditTracker σ) (T t mid : Nat) (s : σ)
    (h : tr.timespan = 3600) :
    (t - T ≤ 3600 → (on_edit (record tr T mid s) t mid).1 = some s) ∧
    (t - T > 3600 →
      (on_edit (record tr T mid s) t mid).1 = none ∧
      ((on_edit (record tr T mid s) t mid).2).entries.all
        (fun e => e.messageId != mid) = true) := by
  have hfind : (record tr T mid s).entries.find? (fun e => e.messageId == mid) =
      some ⟨mid, T, s⟩ := by
    simp [record, List.find?]
  have htsp : (record tr T mid s).timespan = 3600 := h
  constructor
  · intro hle
    simp only [on_edit, hfind]
    rw [if_pos (by omega)]
  · intro hgt
    constructor
    · simp only [on_edit, hfind]
      rw [if_neg (by omega)]
    · simp only [on_edit, hfind]
      rw [if_neg (by omega)]
      simp only [List.all_eq_true]
      intro e hmem
      exact (List.mem_filter.mp hmem).2

/-- Witness for C3: a tracker built by for_timespan 3600, an entry recorded
at time 0, looked up at time 4000. -/
theorem edit_entry_timespan_witness :
    (4000 - 0 ≤ 3600 →
      (on_edit (record (for_timespan 3600) 0 1 "state") 4000 1).1 = some "state") ∧
    (4000 - 0 > 3600 →
      (on_edit (record (for_timespan 3600) 0 1 "state") 4000 1).1 = none ∧
      ((on_edit (record (for_timespan 3600) 0 1 "state") 4000 1).2).entries.all
        (fun e => e.messageId != 1) = true) :=
  edit_entry_timespan (for_timespan 3600) 0 4000 1 "state" rfl

/-- C4: a Setup error is fatal and is the only fatal class — the error
handler panics on a FrameworkError exactly when it is of the Setup class,
for every behaviour of the default handler. -/
theorem setup_error_only_fatal (d : FrameworkError → Except String Unit)
    (err : FrameworkError) :
    (∃ m, on_error d err = .panicked m) ↔ ∃ e, err = .setup e := by
  cases err with
  | setup e => exact ⟨fun _ => ⟨e, rfl⟩, fun _ => ⟨"Failed to start bot: " ++ e, rfl⟩⟩
  | command e name => simp [on_error]
  | argumentError p r =>
    rcases hd : d (.argumentError p r) with e | u <;> simp [on_error, hd]
  | checkFailed r =>
    rcases hd : d (.checkFailed r) with e | u <;> simp [on_error, hd]
  | other s =>
    rcases hd : d (.other s) with e | u <;> simp [on_error, hd]

/-- Witness for C4 at a concrete Setup error and the always-failing
default handler. -/
theorem setup_error_only_fatal_witness :
    (∃ m, on_error failHandler (.setup "no token") = .panicked m) ↔
    ∃ e, FrameworkError.setup "no token" = .setup e :=
  setup_error_only_fatal failHandler (.setup "no token")

/-- C5: for every command-body error, the handler emits a log line naming the
failing command and the cause, does not terminate the process, and does not
affect the dispatch of subsequent invocations (the results for the events
after a failing one are exactly the results of dispatching them alone). -/
theorem command_error_logged (d : FrameworkError → Except String Unit)
    (e name : String) (opts : Options) (ev : CommandSpec String × Ctx)
    (rest : List (CommandSpec String × Ctx)) :
    on_error d (.command e name) = .logged ("Error in command `" ++ name ++ "`: " ++ e) ∧
    (∀ m, on_error d (.command e name) ≠ .panicked m) ∧
    (dispatchAll opts (ev :: rest)).tail = dispatchAll opts rest := by
  refine ⟨rfl, fun m hm => by simp [on_error] at hm, ?_⟩
  simp [dispatchAll]

/-- Witness for C5 at a concrete command error and event sequence. -/
theorem command_error_logged_witness :
    on_error okHandler (.command "boom" "plus") =
      .logged ("Error in command `" ++ "plus" ++ "`: " ++ "boom") ∧
    (∀ m, on_error okHandler (.command "boom" "plus") ≠ .panicked m) ∧
    (dispatchAll programOptions ((say_hello, deniedCtx) :: [(plusCommand 5, allowedCtx)])).tail =
      dispatchAll programOptions [(plusCommand 5, allowedCtx)] :=
  command_error_logged okHandler "boom" "plus" programOptions (say_hello, deniedCtx)
    [(plusCommand 5, allowedCtx)]

/-- C6: an error raised while handling another error is only logged, never
re-raised — for every error class forwarded to the default handler, if the
default handler fails the failure is logged, and the handler never panics on
a forwarded error. -/
theorem handler_error_logged_only (d : FrameworkError → Except String Unit)
    (err : FrameworkError)
    (hs : ∀ e, err ≠ .setup e) (hc : ∀ e name, err ≠ .command e name) :
    (∀ e, d err = .error e →
      on_error d err = .logged ("Error while handling error: " ++ e)) ∧
    (∀ m, on_error d err ≠ .panicked m) := by
  cases err with
  | setup e => exact absurd rfl (hs e)
  | command e name => exact absurd rfl (hc e name)
  | argumentError p r =>
    refine ⟨fun e' he' => by simp [on_error, he'], fun m hm => ?_⟩
    rcases hd : d (.argumentError p r) with e | u <;> simp [on_error, hd] at hm
  | checkFailed r =>
    refine ⟨fun e' he' => by simp [on_error, he'], fun m hm => ?_⟩
    rcases hd : d (.checkFailed r) with e | u <;> simp [on_error, hd] at hm
  | other s =>
    refine ⟨fun e' he' => by simp [on_error, he'], fun m hm => ?_⟩
    rcases hd : d (.other s) with e | u <;> simp [on_error, hd] at hm

/-- Witness for C6 at a concrete forwarded error with a failing default
handler. -/
theorem handler_error_logged_only_witness :
    (∀ e, failHandler (.other "gateway hiccup") = .error e →
      on_error failHandler (.other "gateway hiccup") =
        .logged ("Error while handling error: " ++ e)) ∧
    (∀ m, on_error failHandler (.other "gateway hiccup") ≠ .panicked m) :=
  handler_error_logged_only failHandler (.other "gateway hiccup")
    (fun e h => by simp at h) (fun e name h => by simp at h)

/-- Helper: a check pipeline whose checks before `c` all allow and whose
check `c` denies stops right after `c` — exactly `pre.length + 1` checks
are evaluated and the outcome is a deny. -/
theorem evaluateChecks_deny (ctx : Ctx) (pre post : List Check) (c : Check)
    (hpre : ∀ p ∈ pre, p ctx = .ok true) (hc : c ctx = .ok false) :
    evaluateChecks (pre ++ c :: post) ctx = (.denied, pre.length + 1) := by
  induction pre with
  | nil => simp [evaluateChecks, hc]
  | cons p ps ih =>
    have hp : p ctx = .ok true := hpre p (by simp)
    have ihh := ih (fun q hq => hpre q (by simp [hq]))
    simp [evaluateChecks, hp, ihh]

/-- C7: check evaluation short-circuits on the first deny — when the global
check and the command's own checks decompose as `pre ++ c :: post` with every
check of `pre` allowing and `c` denying, exactly the checks up to and
including `c` are evaluated (none after it), and dispatch reaches
CheckFailed without executing the command body. -/
theorem check_deny_short_circuits {α : Type} (opts : Options) (cmd : CommandSpec α)
    (ctx : Ctx) (pre post : List Check) (c : Check)
    (hchecks : opts.global_check.toList ++ cmd.checks = pre ++ c :: post)
    (hpre : ∀ p ∈ pre, p ctx = .ok true) (hc : c ctx = .ok false)
    (hskip : opts.skip_checks_for_owners = false) :
    evaluateChecks (pre ++ c :: post) ctx = (.denied, pre.length + 1) ∧
    dispatch opts cmd ctx = (.checkFailed, false, pre.length + 1) := by
  have hev := evaluateChecks_deny ctx pre post c hpre hc
  refine ⟨hev, ?_⟩
  simp [dispatch, hskip, pipelineRun, hchecks, hev]

/-- Witness for C7: the program's pipeline for the `hello` command and the
denied caller decomposes as `[] ++ command_check :: []`; the deny at
position 0 stops the pipeline after one check. -/
theorem check_deny_short_circuits_witness :
    evaluateChecks ([] ++ command_check :: []) deniedCtx =
      (.denied, List.length ([] : List Check) + 1) ∧
    dispatch programOptions say_hello deniedCtx =
      (.checkFailed, false, List.length ([] : List Check) + 1) :=
  check_deny_short_circuits programOptions say_hello deniedCtx [] [] command_check
    rfl (fun p hp => absurd hp (List.not_mem_nil p)) rfl rfl

/-- Helper: a command list that registers with no duplicate has, for every
two positions i < j, no shared name, and no name already in `seen`. -/
theorem firstDup_none_disjoint (cmds : List RegCommand) : ∀ (seen : List String),
    firstDup seen cmds = none →
    (∀ i (hi : i < cmds.length), ∀ n ∈ cmdNames cmds[i], n ∉ seen) ∧
    (∀ i j (hi : i < cmds.length) (hj : j < cmds.length), i < j →
      ∀ n, n ∈ cmdNames cmds[i] → n ∉ cmdNames cmds[j]) := by
  induction cmds with
  | nil =>
    intro seen _
    exact ⟨fun i hi => absurd hi (by simp), fun i j hi hj _ => absurd hi (by simp)⟩
  | cons c rest ih =>
    intro seen h
    rw [firstDup] at h
    rcases hf : (cmdNames c).find? (fun n => seen.contains n) with _ | n
    · rw [hf] at h
      have hseen : ∀ n ∈ cmdNames c, n ∉ seen := by
        intro n hn hmem
        have := List.find?_eq_none.mp hf n hn
        simp [hmem] at this
      obtain ⟨ih1, ih2⟩ := ih (seen ++ cmdNames c) h
      constructor
      · intro i hi n hn hmem
        match i with
        | 0 => exact hseen n hn hmem
        | i' + 1 =>
          have := ih1 i' (by simpa using hi) n (by simpa using hn)
          exact this (by simp [hmem])
      · intro i j hi hj hij n hni hnj
        match i, j with
        | 0, j' + 1 =>
          have := ih1 j' (by simpa using hj) n (by simpa using hnj)
          exact this (by simp [List.mem_append]; right; simpa using hni)
        | i' + 1, j' + 1 =>
          exact ih2 i' j' (by simpa using hi) (by simpa using hj) (by omega) n
            (by simpa using hni) (by simpa using hnj)
    · rw [hf] at h
      exact absurd h (by simp)

/-- C8: registering two commands that share a name or alias fails with
DuplicateName — for every command sequence containing a collision at two
distinct positions, in whatever order, register returns a DuplicateName
error and never succeeds. -/
theorem register_duplicate_fails (cmds : List RegCommand) (i j : Nat)
    (hi : i < cmds.length) (hj : j < cmds.length) (hij : i ≠ j) (n : String)
    (h1 : n ∈ cmdNames cmds[i]) (h2 : n ∈ cmdNames cmds[j]) :
    ∃ m, register cmds = .error (.duplicateName m) := by
  rcases hfd : firstDup [] cmds with _ | m
  · exfalso
    have hdisj := (firstDup_none_disjoint cmds [] hfd).2
    rcases Nat.lt_or_ge i j with hlt | hge
    · exact hdisj i j hi hj hlt n h1 h2
    · have hlt : j < i := by omega
      exact hdisj j i hj hi hlt n h2 h1
  · exact ⟨m, by simp [register, hfd]⟩

/-- Witness for C8: two commands colliding through the alias "hello"
(canonical name of the first, alias of the second). -/
theorem register_duplicate_fails_witness :
    ∃ m, register [⟨"hello", []⟩, ⟨"hi", ["hello"]⟩] = .error (.duplicateName m) :=
  register_duplicate_fails [⟨"hello", []⟩, ⟨"hi", ["hello"]⟩] 0 1
    (by norm_num) (by norm_num) (by norm_num) "hello" (by simp [cmdNames])
    (by simp [cmdNames])

/-- C9: the owner-bypass flag defaults to false, the program also sets it to
false explicitly, and whenever it is false the dispatcher runs the check
pipeline for every caller — owners included: dispatch is exactly the
pipeline run, whatever the caller's owner status. -/
theorem skip_checks_for_owners_default_false {α : Type} (opts : Options)
    (cmd : CommandSpec α) (ctx : Ctx) (h : opts.skip_checks_for_owners = false) :
    defaultOptions.skip_checks_for_owners = false ∧
    programOptions.skip_checks_for_owners = false ∧
    dispatch opts cmd ctx = pipelineRun opts cmd ctx := by
  exact ⟨rfl, rfl, by simp [dispatch, h]⟩

/-- Witness for C9 at the `hello` command and a caller marked as owner. -/
theorem skip_checks_for_owners_default_false_witness :
    defaultOptions.skip_checks_for_owners = false ∧
    programOptions.skip_checks_for_owners = false ∧
    dispatch programOptions say_hello
        { authorId := 42, authorName := "alice", isOwner := true } =
      pipelineRun programOptions say_hello
        { authorId := 42, authorName := "alice", isOwner := true } :=
  skip_checks_for_owners_default_false programOptions say_hello
    { authorId := 42, authorName := "alice", isOwner := true } rfl

end GroupTesting
